import Mathlib

/-!
# Quarantine & Envelope-Encryption Lifecycle Service — verification

Shallow embedding of the quarantine package of the security pipeline:

* `packages/quarantine/src/encryption.ts` — AES-256-GCM envelope
  encryption (`createEncryptionService`, `encrypt`, `decrypt`);
* `packages/quarantine/src/service.ts` — the lifecycle service
  (`store`, `getMetadata`, `updateStatus`);
* `packages/quarantine/src/cleanup.ts` — the expiry sweep
  (`cleanupExpiredRecords`);
* `packages/quarantine/src/factory.ts` — configuration defaults
  (`DEFAULT_EXPIRY_HOURS`).

Byte sequences are `List Nat`.  The AES-256-GCM primitive itself comes
from `node:crypto`, which is not part of this repository; it is modelled
below as an ideal authenticated stream cipher (see `gcmEncBytes`,
`gcmTag`, `gcmOpen`).  Everything layered on top of the primitive is a
direct translation of the TypeScript source.
-/

namespace Quarantine

/-! ## Byte-string encoding helpers for the ideal cipher model -/

/-- Base-257 positional encoding of a byte list, with each digit shifted
by one so that the encoding is injective on lists of bytes (values
smaller than 256) across lengths. -/
def encodeBytes : List Nat → Nat
  | [] => 0
  | b :: bs => (b + 1) * 257 ^ bs.length + encodeBytes bs

theorem encodeBytes_lt {bs : List Nat} (h : ∀ b ∈ bs, b < 256) :
    encodeBytes bs < 257 ^ bs.length := by
  induction bs with
  | nil => simp [encodeBytes]
  | cons b bs ih =>
    have hb : b < 256 := h b (List.mem_cons_self _ _)
    have hbs : encodeBytes bs < 257 ^ bs.length :=
      ih (fun x hx => h x (List.mem_cons_of_mem _ hx))
    have hmul : (b + 1) * 257 ^ bs.length ≤ 256 * 257 ^ bs.length :=
      Nat.mul_le_mul_right _ (by omega)
    calc (b + 1) * 257 ^ bs.length + encodeBytes bs
        < (b + 1) * 257 ^ bs.length + 257 ^ bs.length := by omega
      _ ≤ 256 * 257 ^ bs.length + 257 ^ bs.length := by omega
      _ = 257 ^ bs.length * 257 := by ring
      _ = 257 ^ (b :: bs).length := by rw [List.length_cons, pow_succ]

theorem encodeBytes_inj : ∀ {xs ys : List Nat}, xs.length = ys.length →
    (∀ b ∈ xs, b < 256) → (∀ b ∈ ys, b < 256) →
    encodeBytes xs = encodeBytes ys → xs = ys
  | [], [], _, _, _, _ => rfl
  | x :: xs, y :: ys, hlen, hx, hy, heq => by
    have hlen2 : xs.length = ys.length := by simpa using hlen
    have ex : encodeBytes xs < 257 ^ xs.length :=
      encodeBytes_lt (fun b hb => hx b (List.mem_cons_of_mem _ hb))
    have ey : encodeBytes ys < 257 ^ ys.length :=
      encodeBytes_lt (fun b hb => hy b (List.mem_cons_of_mem _ hb))
    have heq2 : (x + 1) * 257 ^ xs.length + encodeBytes xs
        = (y + 1) * 257 ^ xs.length + encodeBytes ys := by
      simpa [encodeBytes, hlen2] using heq
    have hxy : x = y := by
      rcases Nat.lt_trichotomy x y with hlt | heqv | hgt
      · exfalso
        have : (x + 1 + 1) * 257 ^ xs.length ≤ (y + 1) * 257 ^ xs.length :=
          Nat.mul_le_mul_right _ (by omega)
        have : (x + 1) * 257 ^ xs.length + 257 ^ xs.length
            ≤ (y + 1) * 257 ^ xs.length := by
          calc (x + 1) * 257 ^ xs.length + 257 ^ xs.length
              = (x + 1 + 1) * 257 ^ xs.length := by ring
            _ ≤ (y + 1) * 257 ^ xs.length := this
        omega
      · exact heqv
      · exfalso
        have : (y + 1 + 1) * 257 ^ xs.length ≤ (x + 1) * 257 ^ xs.length :=
          Nat.mul_le_mul_right _ (by omega)
        have : (y + 1) * 257 ^ xs.length + 257 ^ xs.length
            ≤ (x + 1) * 257 ^ xs.length := by
          calc (y + 1) * 257 ^ xs.length + 257 ^ xs.length
              = (y + 1 + 1) * 257 ^ xs.length := by ring
            _ ≤ (x + 1) * 257 ^ xs.length := this
        rw [← hlen2] at ey
        omega
    subst hxy
    have htail : encodeBytes xs = encodeBytes ys := by omega
    have := encodeBytes_inj hlen2
      (fun b hb => hx b (List.mem_cons_of_mem _ hb))
      (fun b hb => hy b (List.mem_cons_of_mem _ hb)) htail
    rw [this]

/-! ## Ideal AES-256-GCM model

Modelled from the spec: the AES-256-GCM primitive used by
`encryption.ts` is `node:crypto`'s `createCipheriv` / `createDecipheriv`,
which is not part of this repository.  Following §4.1 of the spec it is
modelled as an ideal authenticated stream cipher: encryption is
length-preserving and deterministic given a key and an IV, each
ciphertext byte determines the corresponding plaintext byte, and the
authentication tag is an injective function of the key, the IV and the
ciphertext, so that verification fails exactly when any of the three (or
the tag itself) changed. -/

/-- The keystream value mixed into the byte at position `i` under the
given key and IV. -/
def gcmKeystream (key iv : List Nat) (i : Nat) : Nat :=
  Nat.pair (encodeBytes (key.length :: (key ++ iv))) i

/-- Ideal GCM stream encryption of a byte list, starting at
position `i`.  Length-preserving, as real GCM (CTR mode) is. -/
def gcmEncBytes (key iv : List Nat) : Nat → List Nat → List Nat
  | _, [] => []
  | i, b :: rest => Nat.pair (gcmKeystream key iv i) b :: gcmEncBytes key iv (i + 1) rest

/-- Recover the plaintext bytes from an ideal GCM ciphertext. -/
def gcmDecBytes (ct : List Nat) : List Nat :=
  ct.map (fun c => (Nat.unpair c).2)

/-- Ideal GCM authentication tag: an injective function of the key, the
IV and the ciphertext (modelling an unforgeable 128-bit tag). -/
def gcmTag (key iv ct : List Nat) : List Nat :=
  key.length :: iv.length :: (key ++ (iv ++ ct))

/-- Ideal GCM authenticated decryption: verify the tag, then decrypt;
fail closed on any mismatch. -/
def gcmOpen (key iv ct tag : List Nat) : Option (List Nat) :=
  if gcmTag key iv ct = tag then some (gcmDecBytes ct) else none

theorem gcmDecBytes_gcmEncBytes (key iv : List Nat) :
    ∀ (i : Nat) (pt : List Nat), gcmDecBytes (gcmEncBytes key iv i pt) = pt := by
  intro i pt
  induction pt generalizing i with
  | nil => rfl
  | cons b rest ih =>
    simp [gcmEncBytes, gcmDecBytes, Nat.unpair_pair] at ih ⊢
    exact ih (i + 1)

theorem gcmTag_inj {key1 iv1 ct1 key2 iv2 ct2 : List Nat}
    (h : gcmTag key1 iv1 ct1 = gcmTag key2 iv2 ct2) :
    key1 = key2 ∧ iv1 = iv2 ∧ ct1 = ct2 := by
  unfold gcmTag at h
  obtain ⟨hk, h⟩ := List.cons.inj h
  obtain ⟨hi, h⟩ := List.cons.inj h
  obtain ⟨hkey, h⟩ := List.append_inj h hk
  obtain ⟨hiv, hct⟩ := List.append_inj h hi
  exact ⟨hkey, hiv, hct⟩

theorem gcmOpen_gcmTag (key iv ct : List Nat) :
    gcmOpen key iv ct (gcmTag key iv ct) = some (gcmDecBytes ct) := by
  simp [gcmOpen]

theorem gcmOpen_ne_ct {key iv ct ct2 : List Nat} (h : ct2 ≠ ct) :
    gcmOpen key iv ct2 (gcmTag key iv ct) = none := by
  unfold gcmOpen
  rw [if_neg]
  intro he
  exact h (gcmTag_inj he).2.2

theorem gcmOpen_ne_key {key key2 iv ct : List Nat} (h : key2 ≠ key) :
    gcmOpen key2 iv ct (gcmTag key iv ct) = none := by
  unfold gcmOpen
  rw [if_neg]
  intro he
  exact h (gcmTag_inj he).1

theorem gcmOpen_ne_tag {key iv ct tag : List Nat} (h : tag ≠ gcmTag key iv ct) :
    gcmOpen key iv ct tag = none := by
  unfold gcmOpen
  rw [if_neg]
  exact fun he => h he.symm

/-! ## `encryption.ts` — `createEncryptionService` -/

/-- `EncryptedPayload` from `types.ts`: the output of one `encrypt`
call. -/
structure EncryptedPayload where
  ciphertext : List Nat
  iv : List Nat
  authTag : List Nat
  encryptedDek : List Nat
  dekIv : List Nat
  dekAuthTag : List Nat
  deriving Repr, DecidableEq

/-- `encrypt` from `encryption.ts`.  The random draws made by
`randomBytes` inside the call (the fresh DEK, the content IV and the
DEK-wrap IV) are passed explicitly. -/
def encrypt (masterKey dek iv dekIv plaintext : List Nat) : EncryptedPayload :=
  let ciphertext := gcmEncBytes dek iv 0 plaintext
  let authTag := gcmTag dek iv ciphertext
  let encryptedDek := gcmEncBytes masterKey dekIv 0 dek
  let dekAuthTag := gcmTag masterKey dekIv encryptedDek
  { ciphertext := ciphertext, iv := iv, authTag := authTag,
    encryptedDek := encryptedDek, dekIv := dekIv, dekAuthTag := dekAuthTag }

/-- `decrypt` from `encryption.ts`: unwrap the DEK under the master key
(AEAD verification), then decrypt the content under the recovered DEK
(AEAD verification).  `none` models the `DecryptionFailed` error thrown
by either verification step. -/
def decrypt (masterKey : List Nat) (p : EncryptedPayload) : Option (List Nat) :=
  match gcmOpen masterKey p.dekIv p.encryptedDek p.dekAuthTag with
  | none => none
  | some dek => gcmOpen dek p.iv p.ciphertext p.authTag

/-- The master-key length check at the top of `createEncryptionService`.
The input is the base64-decoded master key (`Buffer.from(key, 'base64')`);
`Except.error` models the thrown `ValidationError`. -/
def createEncryptionService (masterKey : List Nat) : Except String (List Nat) :=
  if masterKey.length ≠ 32 then
    Except.error "Master key must be exactly 32 bytes (256 bits)."
  else
    Except.ok masterKey

/-- Claim C1: for every plaintext byte sequence, including the empty
one, decrypting the payload produced by `encrypt` under the same master
key returns exactly the original plaintext. -/
theorem decrypt_encrypt_roundtrip (masterKey dek iv dekIv plaintext : List Nat) :
    decrypt masterKey (encrypt masterKey dek iv dekIv plaintext) = some plaintext := by
  unfold decrypt encrypt
  simp [gcmOpen_gcmTag, gcmDecBytes_gcmEncBytes]

/-! ## Tampering (claim C2) -/

theorem set_ne_of_ne_get {bs : List Nat} {i b : Nat} (h : i < bs.length)
    (hb : b ≠ bs.get ⟨i, h⟩) : bs.set i b ≠ bs := by
  intro he
  have h2 := congrArg (fun l : List Nat => l[i]?) he
  simp only [List.getElem?_set, h, if_pos rfl] at h2
  rw [List.getElem?_eq_getElem h] at h2
  simp at h2
  exact hb (by simpa [List.get_eq_getElem] using h2)

/-- Claim C2: on a payload produced by `encrypt`, changing any single
byte of the ciphertext, the content auth tag, the wrapped DEK or the
DEK-wrap auth tag makes `decrypt` fail with `DecryptionFailed` (`none`),
as does decrypting with a different master key; altered or partial
plaintext is never returned. -/
theorem decrypt_tamper_fails (masterKey dek iv dekIv plaintext : List Nat)
    (p : EncryptedPayload) (hp : p = encrypt masterKey dek iv dekIv plaintext) :
    (∀ (i b : Nat) (h : i < p.ciphertext.length), b ≠ p.ciphertext.get ⟨i, h⟩ →
      decrypt masterKey { p with ciphertext := p.ciphertext.set i b } = none) ∧
    (∀ (i b : Nat) (h : i < p.authTag.length), b ≠ p.authTag.get ⟨i, h⟩ →
      decrypt masterKey { p with authTag := p.authTag.set i b } = none) ∧
    (∀ (i b : Nat) (h : i < p.encryptedDek.length), b ≠ p.encryptedDek.get ⟨i, h⟩ →
      decrypt masterKey { p with encryptedDek := p.encryptedDek.set i b } = none) ∧
    (∀ (i b : Nat) (h : i < p.dekAuthTag.length), b ≠ p.dekAuthTag.get ⟨i, h⟩ →
      decrypt masterKey { p with dekAuthTag := p.dekAuthTag.set i b } = none) ∧
    (∀ masterKey2 : List Nat, masterKey2 ≠ masterKey → decrypt masterKey2 p = none) := by
  subst hp
  have hP : encrypt masterKey dek iv dekIv plaintext =
      { ciphertext := gcmEncBytes dek iv 0 plaintext,
        iv := iv,
        authTag := gcmTag dek iv (gcmEncBytes dek iv 0 plaintext),
        encryptedDek := gcmEncBytes masterKey dekIv 0 dek,
        dekIv := dekIv,
        dekAuthTag := gcmTag masterKey dekIv (gcmEncBytes masterKey dekIv 0 dek) } := rfl
  rw [hP]
  refine ⟨?_, ?_, ?_, ?_, ?_⟩
  · intro i b h hb
    have hne := set_ne_of_ne_get h hb
    simp only [decrypt, gcmOpen_gcmTag, gcmDecBytes_gcmEncBytes]
    exact gcmOpen_ne_ct hne
  · intro i b h hb
    have hne := set_ne_of_ne_get h hb
    simp only [decrypt, gcmOpen_gcmTag, gcmDecBytes_gcmEncBytes]
    exact gcmOpen_ne_tag hne
  · intro i b h hb
    have hne := set_ne_of_ne_get h hb
    simp only [decrypt]
    rw [gcmOpen_ne_ct hne]
  · intro i b h hb
    have hne := set_ne_of_ne_get h hb
    simp only [decrypt]
    rw [gcmOpen_ne_tag hne]
  · intro masterKey2 hne
    simp only [decrypt]
    rw [gcmOpen_ne_key hne]

/-- Concrete byte strings used by the crypto witnesses. -/
def mkBytesA : List Nat := List.replicate 32 0

def dekBytesA : List Nat := List.replicate 32 2

def ivBytesA : List Nat := List.replicate 12 3

def dekIvBytesA : List Nat := List.replicate 12 4

theorem decrypt_tamper_fails_witness :
    ([1] : List Nat) ≠ mkBytesA ∧
    decrypt [1] (encrypt mkBytesA dekBytesA ivBytesA dekIvBytesA [9, 9]) = none ∧
    (0 : Nat) < (encrypt mkBytesA dekBytesA ivBytesA dekIvBytesA [9, 9]).ciphertext.length ∧
    decrypt mkBytesA
      { encrypt mkBytesA dekBytesA ivBytesA dekIvBytesA [9, 9] with
        ciphertext :=
          (encrypt mkBytesA dekBytesA ivBytesA dekIvBytesA [9, 9]).ciphertext.set 0 0 }
      = none :=
  ⟨by decide,
   (decrypt_tamper_fails mkBytesA dekBytesA ivBytesA dekIvBytesA [9, 9] _ rfl).2.2.2.2
     [1] (by decide),
   by decide,
   (decrypt_tamper_fails mkBytesA dekBytesA ivBytesA dekIvBytesA [9, 9] _ rfl).1
     0 0 (by decide) (by decide)⟩

/-! ## Fresh randomness per `encrypt` call (claim C9) -/

/-- Claim C9 as stated: for every plaintext, two `encrypt` calls whose
random draws (DEK, content IV, DEK-wrap IV) are distinct produce
payloads differing in ciphertext, in content IV and in wrapped DEK. -/
def encryptFreshnessClaim : Prop :=
  ∀ masterKey plaintext dek1 iv1 dekIv1 dek2 iv2 dekIv2 : List Nat,
    dek1 ≠ dek2 → iv1 ≠ iv2 → dekIv1 ≠ dekIv2 →
    (encrypt masterKey dek1 iv1 dekIv1 plaintext).ciphertext
        ≠ (encrypt masterKey dek2 iv2 dekIv2 plaintext).ciphertext ∧
    (encrypt masterKey dek1 iv1 dekIv1 plaintext).iv
        ≠ (encrypt masterKey dek2 iv2 dekIv2 plaintext).iv ∧
    (encrypt masterKey dek1 iv1 dekIv1 plaintext).encryptedDek
        ≠ (encrypt masterKey dek2 iv2 dekIv2 plaintext).encryptedDek

/-- Claim C9 is false as stated: GCM is length-preserving, so for the
empty plaintext both calls produce the empty ciphertext, even though all
random draws differ. -/
theorem encrypt_empty_plaintext_equal_ciphertexts : ¬ encryptFreshnessClaim := by
  intro h
  have h2 := (h (List.replicate 32 0) [] (List.replicate 32 1) (List.replicate 12 1)
      (List.replicate 12 1) (List.replicate 32 2) (List.replicate 12 2)
      (List.replicate 12 2) (by decide) (by decide) (by decide)).1
  exact h2 rfl

theorem frame_bytes_lt {key iv : List Nat} (hlen : key.length < 256)
    (hkb : ∀ b ∈ key, b < 256) (hib : ∀ b ∈ iv, b < 256) :
    ∀ b ∈ key.length :: (key ++ iv), b < 256 := by
  intro b hb
  rcases List.mem_cons.mp hb with h | h
  · omega
  · rcases List.mem_append.mp h with h | h
    · exact hkb b h
    · exact hib b h

theorem gcmKeystream_inj {key1 iv1 key2 iv2 : List Nat} {i : Nat}
    (hklen : key1.length = key2.length) (hilen : iv1.length = iv2.length)
    (hk1lt : key1.length < 256)
    (hk1b : ∀ b ∈ key1, b < 256) (hk2b : ∀ b ∈ key2, b < 256)
    (hi1b : ∀ b ∈ iv1, b < 256) (hi2b : ∀ b ∈ iv2, b < 256)
    (h : gcmKeystream key1 iv1 i = gcmKeystream key2 iv2 i) :
    key1 = key2 ∧ iv1 = iv2 := by
  unfold gcmKeystream at h
  have he := (Nat.pair_eq_pair.mp h).1
  have hframe := encodeBytes_inj (by simp [hklen, hilen])
    (frame_bytes_lt hk1lt hk1b hi1b)
    (frame_bytes_lt (hklen ▸ hk1lt) hk2b hi2b) he
  have h2 := (List.cons.inj hframe).2
  exact List.append_inj h2 hklen

/-- Claim C9, amended: two `encrypt` calls on the same plaintext whose
random draws are distinct well-formed byte strings (32-byte DEKs,
12-byte IVs, bytes below 256, as produced by `randomBytes`, under a
32-byte master key) produce payloads that differ in content IV and in
wrapped DEK, and also in ciphertext whenever the plaintext is
non-empty. -/
theorem encrypt_fresh_randomness_distinct
    (masterKey plaintext dek1 iv1 dekIv1 dek2 iv2 dekIv2 : List Nat)
    (hmk : masterKey.length = 32) (hmkb : ∀ b ∈ masterKey, b < 256)
    (hd1 : dek1.length = 32) (hd1b : ∀ b ∈ dek1, b < 256)
    (hd2 : dek2.length = 32) (hd2b : ∀ b ∈ dek2, b < 256)
    (hi1 : iv1.length = 12) (hi1b : ∀ b ∈ iv1, b < 256)
    (hi2 : iv2.length = 12) (hi2b : ∀ b ∈ iv2, b < 256)
    (hw1 : dekIv1.length = 12) (hw1b : ∀ b ∈ dekIv1, b < 256)
    (hw2 : dekIv2.length = 12) (hw2b : ∀ b ∈ dekIv2, b < 256)
    (hdek : dek1 ≠ dek2) (hiv : iv1 ≠ iv2) (hdekIv : dekIv1 ≠ dekIv2) :
    (encrypt masterKey dek1 iv1 dekIv1 plaintext).iv
        ≠ (encrypt masterKey dek2 iv2 dekIv2 plaintext).iv ∧
    (encrypt masterKey dek1 iv1 dekIv1 plaintext).encryptedDek
        ≠ (encrypt masterKey dek2 iv2 dekIv2 plaintext).encryptedDek ∧
    (plaintext ≠ [] →
      (encrypt masterKey dek1 iv1 dekIv1 plaintext).ciphertext
          ≠ (encrypt masterKey dek2 iv2 dekIv2 plaintext).ciphertext) := by
  refine ⟨by simpa [encrypt] using hiv, ?_, ?_⟩
  · intro heq
    simp only [encrypt] at heq
    cases hdk1 : dek1 with
    | nil => rw [hdk1] at hd1; simp at hd1
    | cons a r1 =>
      cases hdk2 : dek2 with
      | nil => rw [hdk2] at hd2; simp at hd2
      | cons c r2 =>
        rw [hdk1, hdk2] at heq
        simp only [gcmEncBytes] at heq
        have hhead := (List.cons.inj heq).1
        have hks := (Nat.pair_eq_pair.mp hhead).1
        have := (gcmKeystream_inj rfl (by omega) (by omega) hmkb hmkb hw1b hw2b hks).2
        exact hdekIv this
  · intro hpt heq
    simp only [encrypt] at heq
    cases hp : plaintext with
    | nil => exact hpt hp
    | cons q rest =>
      rw [hp] at heq
      simp only [gcmEncBytes] at heq
      have hhead := (List.cons.inj heq).1
      have hks := (Nat.pair_eq_pair.mp hhead).1
      have := (gcmKeystream_inj (by omega) (by omega) (by omega) hd1b hd2b hi1b hi2b hks).2
      exact hiv this

/-- Second set of concrete byte strings for the C9 witness. -/
def dekBytesB : List Nat := List.replicate 32 5

def ivBytesB : List Nat := List.replicate 12 6

def dekIvBytesB : List Nat := List.replicate 12 7

theorem encrypt_fresh_randomness_distinct_witness :
    mkBytesA.length = 32 ∧ dekBytesA ≠ dekBytesB ∧ ivBytesA ≠ ivBytesB ∧
    dekIvBytesA ≠ dekIvBytesB ∧
    ((encrypt mkBytesA dekBytesA ivBytesA dekIvBytesA [7]).iv
        ≠ (encrypt mkBytesA dekBytesB ivBytesB dekIvBytesB [7]).iv ∧
     (encrypt mkBytesA dekBytesA ivBytesA dekIvBytesA [7]).encryptedDek
        ≠ (encrypt mkBytesA dekBytesB ivBytesB dekIvBytesB [7]).encryptedDek ∧
     (([7] : List Nat) ≠ [] →
       (encrypt mkBytesA dekBytesA ivBytesA dekIvBytesA [7]).ciphertext
          ≠ (encrypt mkBytesA dekBytesB ivBytesB dekIvBytesB [7]).ciphertext)) :=
  ⟨by decide, by decide, by decide, by decide,
   encrypt_fresh_randomness_distinct mkBytesA [7] dekBytesA ivBytesA dekIvBytesA
     dekBytesB ivBytesB dekIvBytesB (by decide) (by decide) (by decide) (by decide)
     (by decide) (by decide) (by decide) (by decide) (by decide) (by decide)
     (by decide) (by decide) (by decide) (by decide) (by decide) (by decide)
     (by decide)⟩

/-! ## Data model — `types.ts` and the Sequelize models -/

/-- `QuarantineStatus` from `types.ts`. -/
inductive QStatus where
  | QUARANTINED
  | UNDER_REVIEW
  | RELEASED
  | DELETED
  | EXPIRED
  deriving Repr, DecidableEq

/-- `QuarantineRecordAttributes` from `types.ts`.  Timestamps are epoch
milliseconds (`Date.getTime()`). -/
structure QuarantineRecordAttributes where
  id : String
  s3Key : String
  status : QStatus
  tier : String
  labels : List String
  contentType : Option String
  sourceId : Option String
  encryptionKeyId : String
  contentHash : String
  sizeBytes : Nat
  expiresAt : Nat
  reviewedBy : Option String
  reviewedAt : Option Nat
  reviewNotes : Option String
  createdAt : Nat
  updatedAt : Nat
  deriving Repr, DecidableEq

/-- `EncryptionKeyAttributes` from `types.ts`.  The base64 transport
encoding applied by `Buffer.toString('base64')` (node built-in, an
injective re-encoding) is modelled as the identity on byte lists. -/
structure EncryptionKeyAttributes where
  id : String
  encryptedDataKey : List Nat
  iv : List Nat
  authTag : List Nat
  algorithm : String
  createdAt : Nat
  deriving Repr, DecidableEq

/-- `QuarantineMetadata` from `types.ts` (the fields `store` actually
reads; `pluginResults` is accepted by the interface but never read by
the service). -/
structure QuarantineMetadata where
  tier : String
  labels : List String
  contentType : Option String
  sourceId : Option String
  deriving Repr, DecidableEq

/-- The durable state the service operates on: the two metadata tables
(quarantine records and encryption-key records) and the Object Store
(S3) as a key/blob association list. -/
structure ServiceState where
  records : List QuarantineRecordAttributes
  keys : List EncryptionKeyAttributes
  blobs : List (String × List Nat)
  deriving Repr, DecidableEq

/-- The externally visible persistence operations a service call makes,
in execution order. -/
inductive StoreEvent where
  | keyCreate (id : String)
  | blobUpload (key : String)
  | blobDelete (key : String)
  | blobDeleteMany (keys : List String)
  | recordCreate (id : String)
  | recordUpdate (id : String)
  | recordUpdateMany (ids : List String)
  deriving Repr, DecidableEq

/-- Whether an event is an Object Store (S3) operation, as opposed to a
metadata-table operation. -/
def StoreEvent.isObjectStoreOp : StoreEvent → Bool
  | .blobUpload _ => true
  | .blobDelete _ => true
  | .blobDeleteMany _ => true
  | _ => false

/-- Errors surfaced by the service (§7 of the spec): `notFound` models
the `Quarantine record not found` error thrown by `updateStatus`;
`storageError` models a backend failure propagated from the storage
client. -/
inductive QError where
  | notFound (id : String)
  | storageError
  deriving Repr, DecidableEq

/-- JavaScript truthiness of an optional string argument, as tested by
`if (reviewedBy)` in `updateStatus`: `undefined` and the empty string
are falsy. -/
def strTruthy : Option String → Bool
  | none => false
  | some s => !s.isEmpty

/-- Modelled from the spec: the hex-encoded SHA-256 digest computed by
`createHash('sha256')` (node:crypto, not part of this repository),
modelled as an ideal collision-free digest of the plaintext bytes. -/
def sha256Hex (bs : List Nat) : String :=
  String.mk (Nat.toDigits 16 (encodeBytes bs))

/-! ## `factory.ts` -/

/-- `DEFAULT_EXPIRY_HOURS` from `factory.ts`. -/
def DEFAULT_EXPIRY_HOURS : Nat := 72

/-- `config.expiryHours ?? DEFAULT_EXPIRY_HOURS` in
`createQuarantineService`. -/
def resolveExpiryHours (configExpiryHours : Option Nat) : Nat :=
  configExpiryHours.getD DEFAULT_EXPIRY_HOURS

/-! ## `service.ts` -/

/-- The random identifiers and random bytes drawn during one `store`
call: `randomUUID()` for the key record, the S3 object key and the
quarantine record, and `randomBytes` draws inside `encrypt`.  The
date-partitioned S3 key `quarantine/<y>/<m>/<d>/<uuid>` is collapsed
into the supplied generated key. -/
structure StoreRandomness where
  dek : List Nat
  iv : List Nat
  dekIv : List Nat
  keyId : String
  s3Key : String
  recordId : String
  deriving Repr, DecidableEq

/-- `store` from `service.ts`: hash the plaintext, encrypt it, persist
the `EncryptionKey` record, upload the ciphertext, persist the
`QuarantineRecord`, and return the new record id.  `now` is the
`new Date()` taken during the call; `expiryHours` is the configured
TTL. -/
def store (masterKey : List Nat) (expiryHours : Nat) (rnd : StoreRandomness)
    (now : Nat) (content : List Nat) (metadata : QuarantineMetadata)
    (s : ServiceState) : String × ServiceState × List StoreEvent :=
  let contentHash := sha256Hex content
  let encrypted := encrypt masterKey rnd.dek rnd.iv rnd.dekIv content
  let keyRecord : EncryptionKeyAttributes :=
    { id := rnd.keyId, encryptedDataKey := encrypted.encryptedDek,
      iv := encrypted.dekIv, authTag := encrypted.dekAuthTag,
      algorithm := "aes-256-gcm", createdAt := now }
  let record : QuarantineRecordAttributes :=
    { id := rnd.recordId, s3Key := rnd.s3Key, status := QStatus.QUARANTINED,
      tier := metadata.tier, labels := metadata.labels,
      contentType := metadata.contentType, sourceId := metadata.sourceId,
      encryptionKeyId := keyRecord.id, contentHash := contentHash,
      sizeBytes := content.length,
      expiresAt := now + expiryHours * 60 * 60 * 1000,
      reviewedBy := none, reviewedAt := none, reviewNotes := none,
      createdAt := now, updatedAt := now }
  (rnd.recordId,
   { records := s.records ++ [record], keys := s.keys ++ [keyRecord],
     blobs := s.blobs ++ [(rnd.s3Key, encrypted.ciphertext)] },
   [StoreEvent.keyCreate rnd.keyId, StoreEvent.blobUpload rnd.s3Key,
    StoreEvent.recordCreate rnd.recordId])

/-- `getMetadata` from `service.ts`: `findByPk`, returning `none` for a
missing id. -/
def getMetadata (id : String) (s : ServiceState) : Option QuarantineRecordAttributes :=
  s.records.find? (fun r => decide (r.id = id))

/-- `updateStatus` from `service.ts`.  `deleteOk` says whether the
`storage.delete` call issued in the `DELETED` branch succeeds (a failing
delete throws before `record.update` runs, leaving all state
unchanged).  The result carries the resulting state, the persistence
operations performed (attempted), and the error, if any. -/
def updateStatus (deleteOk : Bool) (now : Nat) (id : String) (status : QStatus)
    (reviewedBy reviewNotes : Option String) (s : ServiceState) :
    ServiceState × List StoreEvent × Option QError :=
  match s.records.find? (fun r => decide (r.id = id)) with
  | none => (s, [], some (QError.notFound id))
  | some r =>
    let r2 : QuarantineRecordAttributes :=
      { r with
        status := status,
        reviewedBy := if strTruthy reviewedBy then reviewedBy else r.reviewedBy,
        reviewedAt := if strTruthy reviewedBy then some now else r.reviewedAt,
        reviewNotes := if strTruthy reviewNotes then reviewNotes else r.reviewNotes,
        updatedAt := now }
    if status = QStatus.DELETED then
      if deleteOk then
        ({ s with
           records := s.records.map (fun q => if q.id = id then r2 else q),
           blobs := s.blobs.filter (fun kv => !(decide (kv.1 = r.s3Key))) },
         [StoreEvent.blobDelete r.s3Key, StoreEvent.recordUpdate id], none)
      else
        (s, [StoreEvent.blobDelete r.s3Key], some QError.storageError)
    else
      ({ s with
         records := s.records.map (fun q => if q.id = id then r2 else q) },
       [StoreEvent.recordUpdate id], none)

/-! ## `cleanup.ts` -/

/-- The `findAll` filter of `cleanupExpiredRecords`:
`expiresAt <= now` and `status` in `QUARANTINED`, `UNDER_REVIEW`. -/
def isExpirable (now : Nat) (r : QuarantineRecordAttributes) : Bool :=
  decide (r.expiresAt ≤ now) &&
    (decide (r.status = QStatus.QUARANTINED) || decide (r.status = QStatus.UNDER_REVIEW))

/-- `cleanupExpiredRecords` from `cleanup.ts`.  `now` is the
`new Date()` taken at the start of the sweep; `deleteManyOk` says
whether the batch `storage.deleteMany` call succeeds (a failing batch
delete throws before the bulk status update runs).  Returns the count of
records processed, the resulting state, the operations performed and the
error, if any. -/
def cleanupExpiredRecords (deleteManyOk : Bool) (now : Nat) (s : ServiceState) :
    Nat × ServiceState × List StoreEvent × Option QError :=
  let expired := s.records.filter (isExpirable now)
  if expired.isEmpty then (0, s, [], none)
  else
    let s3Keys := expired.map (fun r => r.s3Key)
    if deleteManyOk then
      let ids := expired.map (fun r => r.id)
      (expired.length,
       { s with
         blobs := s.blobs.filter (fun kv => !(decide (kv.1 ∈ s3Keys))),
         records := s.records.map (fun r =>
           if r.id ∈ ids then
             { r with status := QStatus.EXPIRED, updatedAt := now }
           else r) },
       [StoreEvent.blobDeleteMany s3Keys, StoreEvent.recordUpdateMany ids], none)
    else
      (0, s, [StoreEvent.blobDeleteMany s3Keys], some QError.storageError)

/-! ## Helper lemmas about the record table -/

theorem find?_append_of_none {α : Type} {p : α → Bool} {l1 l2 : List α}
    (h : l1.find? p = none) : (l1 ++ l2).find? p = l2.find? p := by
  induction l1 with
  | nil => rfl
  | cons a as ih =>
    rw [List.cons_append]
    cases hpa : p a with
    | true => rw [List.find?_cons_of_pos _ hpa] at h; cases h
    | false =>
      rw [List.find?_cons_of_neg _ (by simp [hpa])] at h
      rw [List.find?_cons_of_neg _ (by simp [hpa])]
      exact ih h

theorem find?_map_update {l : List QuarantineRecordAttributes} {id : String}
    {r r2 : QuarantineRecordAttributes}
    (h : l.find? (fun q => decide (q.id = id)) = some r) (hid : r2.id = id) :
    (l.map (fun q => if q.id = id then r2 else q)).find? (fun q => decide (q.id = id))
      = some r2 := by
  induction l with
  | nil => cases h
  | cons a as ih =>
    by_cases ha : a.id = id
    · rw [List.map_cons, if_pos ha, List.find?_cons_of_pos _ (by simp [hid])]
    · rw [List.find?_cons_of_neg _ (by simp [ha])] at h
      rw [List.map_cons, if_neg ha, List.find?_cons_of_neg _ (by simp [ha])]
      exact ih h

/-- A concrete quarantine record used by the service-layer witnesses. -/
def sampleRecord : QuarantineRecordAttributes :=
  { id := "rec1", s3Key := "k1", status := QStatus.QUARANTINED, tier := "HIGH",
    labels := ["AWS_KEY"], contentType := none, sourceId := none,
    encryptionKeyId := "ek1", contentHash := "h", sizeBytes := 1, expiresAt := 10,
    reviewedBy := none, reviewedAt := none, reviewNotes := none,
    createdAt := 0, updatedAt := 0 }

/-- A concrete service state holding `sampleRecord` and its blob. -/
def sampleState : ServiceState :=
  { records := [sampleRecord], keys := [], blobs := [("k1", [5])] }

/-! ## Claim C7 — unknown id -/

/-- Claim C7: for an id that names no existing record, `updateStatus`
fails with `NotFound`, performs no Object Store operation and leaves all
stored state unchanged, for every status value. -/
theorem updateStatus_unknown_id_notFound (deleteOk : Bool) (now : Nat) (id : String)
    (status : QStatus) (reviewedBy reviewNotes : Option String) (s : ServiceState)
    (h : getMetadata id s = none) :
    updateStatus deleteOk now id status reviewedBy reviewNotes s
      = (s, [], some (QError.notFound id)) := by
  unfold getMetadata at h
  unfold updateStatus
  rw [h]

theorem updateStatus_unknown_id_notFound_witness :
    getMetadata "missing" ⟨[], [], []⟩ = none ∧
    updateStatus true 0 "missing" QStatus.RELEASED none none ⟨[], [], []⟩
      = (⟨[], [], []⟩, [], some (QError.notFound "missing")) :=
  ⟨by decide,
   updateStatus_unknown_id_notFound true 0 "missing" QStatus.RELEASED none none
     ⟨[], [], []⟩ (by decide)⟩

/-! ## Claim C3 — `DELETED` and the Object Store -/

/-- Claim C3: for an existing record, `updateStatus` performs an Object
Store operation exactly when the new status is `DELETED`; in that case
the blob delete happens before the metadata update, and if the blob
delete fails the whole operation fails with the storage error and all
stored state (in particular the record's status and every other field)
is unchanged. -/
theorem updateStatus_objectStore_iff_deleted (deleteOk : Bool) (now : Nat) (id : String)
    (status : QStatus) (reviewedBy reviewNotes : Option String) (s : ServiceState)
    (r : QuarantineRecordAttributes) (hr : getMetadata id s = some r) :
    ((∃ e ∈ (updateStatus deleteOk now id status reviewedBy reviewNotes s).2.1,
        e.isObjectStoreOp = true) ↔ status = QStatus.DELETED) ∧
    (status = QStatus.DELETED → deleteOk = true →
      (updateStatus deleteOk now id status reviewedBy reviewNotes s).2.1
        = [StoreEvent.blobDelete r.s3Key, StoreEvent.recordUpdate id]) ∧
    (status = QStatus.DELETED → deleteOk = false →
      (updateStatus deleteOk now id status reviewedBy reviewNotes s).2.2
          = some QError.storageError ∧
      (updateStatus deleteOk now id status reviewedBy reviewNotes s).1 = s) := by
  unfold getMetadata at hr
  by_cases hst : status = QStatus.DELETED
  · cases deleteOk
    · simp [updateStatus, hr, hst, StoreEvent.isObjectStoreOp]
    · simp [updateStatus, hr, hst, StoreEvent.isObjectStoreOp]
  · simp only [updateStatus, hr, if_neg hst]
    refine ⟨?_, fun h => absurd h hst, fun h => absurd h hst⟩
    simp [StoreEvent.isObjectStoreOp, hst]

theorem updateStatus_objectStore_iff_deleted_witness :
    getMetadata "rec1" sampleState = some sampleRecord ∧
    ((updateStatus false 7 "rec1" QStatus.DELETED none none sampleState).2.2
        = some QError.storageError ∧
     (updateStatus false 7 "rec1" QStatus.DELETED none none sampleState).1
        = sampleState) :=
  ⟨by decide,
   (updateStatus_objectStore_iff_deleted false 7 "rec1" QStatus.DELETED none none
       sampleState sampleRecord (by decide)).2.2 rfl rfl⟩

/-! ## Claim C10 — reviewer truthiness -/

/-- Claim C10: an `updateStatus` call whose `reviewedBy` argument is the
empty string behaves exactly like a call with `reviewedBy` omitted; for
an existing record the updated row has the requested status, and
`reviewedBy`/`reviewedAt` are stamped (with the current time) exactly
when `reviewedBy` is a non-empty string, just as `reviewNotes` is stored
exactly when it is a non-empty string. -/
theorem updateStatus_reviewer_truthiness (deleteOk : Bool) (now : Nat) (id : String)
    (status : QStatus) (reviewedBy reviewNotes : Option String) (s : ServiceState)
    (r : QuarantineRecordAttributes) (hr : getMetadata id s = some r) :
    updateStatus deleteOk now id status (some "") reviewNotes s
      = updateStatus deleteOk now id status none reviewNotes s ∧
    (∃ r2, getMetadata id (updateStatus true now id status reviewedBy reviewNotes s).1
        = some r2
      ∧ r2.status = status
      ∧ (strTruthy reviewedBy = true → r2.reviewedBy = reviewedBy ∧ r2.reviewedAt = some now)
      ∧ (strTruthy reviewedBy = false → r2.reviewedBy = r.reviewedBy
          ∧ r2.reviewedAt = r.reviewedAt)
      ∧ (strTruthy reviewNotes = true → r2.reviewNotes = reviewNotes)
      ∧ (strTruthy reviewNotes = false → r2.reviewNotes = r.reviewNotes)) := by
  unfold getMetadata at hr
  have hp := List.find?_some hr
  have hrid : r.id = id := by simpa using hp
  constructor
  · unfold updateStatus
    rw [hr]
    rfl
  · refine ⟨{ r with
        status := status,
        reviewedBy := if strTruthy reviewedBy then reviewedBy else r.reviewedBy,
        reviewedAt := if strTruthy reviewedBy then some now else r.reviewedAt,
        reviewNotes := if strTruthy reviewNotes then reviewNotes else r.reviewNotes,
        updatedAt := now }, ?_, ?_, ?_, ?_, ?_, ?_⟩
    · unfold updateStatus
      rw [hr]
      by_cases hst : status = QStatus.DELETED
      · simp only [if_pos hst, if_pos rfl, getMetadata]
        exact find?_map_update hr hrid
      · simp only [if_neg hst, getMetadata]
        exact find?_map_update hr hrid
    · rfl
    · intro ht; simp [ht]
    · intro ht; simp [ht]
    · intro ht; simp [ht]
    · intro ht; simp [ht]

theorem updateStatus_reviewer_truthiness_witness :
    getMetadata "rec1" sampleState = some sampleRecord ∧
    updateStatus true 3 "rec1" QStatus.RELEASED (some "") (some "n") sampleState
      = updateStatus true 3 "rec1" QStatus.RELEASED none (some "n") sampleState :=
  ⟨by decide,
   (updateStatus_reviewer_truthiness true 3 "rec1" QStatus.RELEASED none (some "n")
       sampleState sampleRecord (by decide)).1⟩

/-! ## Claims C4, C5 — the expiry sweep -/

theorem mem_ids_iff_filter {l : List QuarantineRecordAttributes}
    {p : QuarantineRecordAttributes → Bool}
    (h : (l.map (fun r => r.id)).Nodup) {r : QuarantineRecordAttributes} (hr : r ∈ l) :
    (r.id ∈ (l.filter p).map (fun x => x.id)) ↔ p r = true := by
  constructor
  · intro hmem
    obtain ⟨x, hxf, hxid⟩ := List.mem_map.mp hmem
    obtain ⟨hxl, hpx⟩ := List.mem_filter.mp hxf
    have hx : x = r := List.inj_on_of_nodup_map h hxl hr hxid
    rw [← hx]
    exact hpx
  · intro hp
    exact List.mem_map.mpr ⟨r, List.mem_filter.mpr ⟨hr, hp⟩, rfl⟩

/-- Claim C4: `cleanupExpiredRecords` (the sweep behind `cleanup`),
given the time `now` read at the start of the sweep, succeeds, batch
deletes exactly the blobs of the records whose status is `QUARANTINED`
or `UNDER_REVIEW` and whose `expiresAt <= now`, marks exactly those
records `EXPIRED` (leaving every other record untouched), and returns
the number of records processed.  Record ids are assumed pairwise
distinct (the table's primary-key invariant). -/
theorem cleanup_expires_exactly_matching (now : Nat) (s : ServiceState)
    (hids : (s.records.map (fun r => r.id)).Nodup) :
    (cleanupExpiredRecords true now s).2.2.2 = none ∧
    (cleanupExpiredRecords true now s).1
      = (s.records.filter (isExpirable now)).length ∧
    (cleanupExpiredRecords true now s).2.1.records
      = s.records.map (fun r =>
          if isExpirable now r then
            { r with status := QStatus.EXPIRED, updatedAt := now }
          else r) ∧
    (cleanupExpiredRecords true now s).2.1.blobs
      = s.blobs.filter (fun kv =>
          !(decide (kv.1 ∈ (s.records.filter (isExpirable now)).map (fun r => r.s3Key)))) ∧
    ((s.records.filter (isExpirable now)).isEmpty = false →
      (cleanupExpiredRecords true now s).2.2.1
        = [StoreEvent.blobDeleteMany
             ((s.records.filter (isExpirable now)).map (fun r => r.s3Key)),
           StoreEvent.recordUpdateMany
             ((s.records.filter (isExpirable now)).map (fun r => r.id))]) := by
  by_cases hemp : (s.records.filter (isExpirable now)).isEmpty = true
  · have hnil : s.records.filter (isExpirable now) = [] := List.isEmpty_iff.mp hemp
    have hnone : ∀ r ∈ s.records, ¬ isExpirable now r = true :=
      List.filter_eq_nil_iff.mp hnil
    refine ⟨?_, ?_, ?_, ?_, ?_⟩
    · simp [cleanupExpiredRecords, hemp]
    · simp [cleanupExpiredRecords, hemp, hnil]
    · have hmap : s.records.map (fun r =>
          if isExpirable now r then
            { r with status := QStatus.EXPIRED, updatedAt := now }
          else r) = s.records := by
        rw [List.map_congr_left (g := fun r => r)]
        · exact List.map_id' s.records
        · intro r hr
          exact if_neg (hnone r hr)
      simp [cleanupExpiredRecords, hemp, hmap]
    · rw [hnil]
      simp [cleanupExpiredRecords, hemp, List.filter_true]
    · intro h
      rw [hemp] at h
      cases h
  · have hemp2 : (s.records.filter (isExpirable now)).isEmpty = false := by
      simpa using hemp
    refine ⟨?_, ?_, ?_, ?_, ?_⟩
    · simp [cleanupExpiredRecords, hemp2]
    · simp [cleanupExpiredRecords, hemp2]
    · simp only [cleanupExpiredRecords, hemp2, Bool.false_eq_true, if_false, if_true]
      apply List.map_congr_left
      intro r hr
      have hiff : (r.id ∈ (s.records.filter (isExpirable now)).map (fun x => x.id))
          ↔ isExpirable now r = true := mem_ids_iff_filter hids hr
      by_cases hp : isExpirable now r = true
      · rw [if_pos (hiff.mpr hp), if_pos hp]
      · rw [if_neg (fun hmem => hp (hiff.mp hmem)), if_neg hp]
    · simp [cleanupExpiredRecords, hemp2]
    · intro _
      simp [cleanupExpiredRecords, hemp2]

/-- Claim C5: if the batch blob delete of the sweep throws, the sweep
aborts with the storage error and no stored state changes — in
particular no record's status becomes `EXPIRED`. -/
theorem cleanup_delete_failure_aborts (now : Nat) (s : ServiceState) :
    (cleanupExpiredRecords false now s).2.1 = s ∧
    ((s.records.filter (isExpirable now)).isEmpty = false →
      (cleanupExpiredRecords false now s).2.2.2 = some QError.storageError) := by
  by_cases hemp : (s.records.filter (isExpirable now)).isEmpty = true
  · refine ⟨by simp [cleanupExpiredRecords, hemp], ?_⟩
    intro h
    rw [hemp] at h
    cases h
  · have hemp2 : (s.records.filter (isExpirable now)).isEmpty = false := by
      simpa using hemp
    exact ⟨by simp [cleanupExpiredRecords, hemp2],
      fun _ => by simp [cleanupExpiredRecords, hemp2]⟩

/-- The three-record sweep scenario from the spec: one `QUARANTINED`
and expired, one `UNDER_REVIEW` and expired, one `RELEASED` and
expired. -/
def sweepRecordQ : QuarantineRecordAttributes :=
  { sampleRecord with
    id := "sw1", s3Key := "b1", status := QStatus.QUARANTINED, expiresAt := 50 }

def sweepRecordU : QuarantineRecordAttributes :=
  { sampleRecord with
    id := "sw2", s3Key := "b2", status := QStatus.UNDER_REVIEW, expiresAt := 50 }

def sweepRecordR : QuarantineRecordAttributes :=
  { sampleRecord with
    id := "sw3", s3Key := "b3", status := QStatus.RELEASED, expiresAt := 50 }

def sweepState : ServiceState :=
  { records := [sweepRecordQ, sweepRecordU, sweepRecordR], keys := [],
    blobs := [("b1", [1]), ("b2", [2]), ("b3", [3])] }

theorem cleanup_expires_exactly_matching_witness :
    (sweepState.records.map (fun r => r.id)).Nodup ∧
    ((cleanupExpiredRecords true 100 sweepState).2.2.2 = none ∧
     (cleanupExpiredRecords true 100 sweepState).1
       = (sweepState.records.filter (isExpirable 100)).length ∧
     (cleanupExpiredRecords true 100 sweepState).2.1.records
       = sweepState.records.map (fun r =>
           if isExpirable 100 r then
             { r with status := QStatus.EXPIRED, updatedAt := 100 }
           else r) ∧
     (cleanupExpiredRecords true 100 sweepState).2.1.blobs
       = sweepState.blobs.filter (fun kv =>
           !(decide (kv.1 ∈ (sweepState.records.filter (isExpirable 100)).map
               (fun r => r.s3Key)))) ∧
     ((sweepState.records.filter (isExpirable 100)).isEmpty = false →
       (cleanupExpiredRecords true 100 sweepState).2.2.1
         = [StoreEvent.blobDeleteMany
              ((sweepState.records.filter (isExpirable 100)).map (fun r => r.s3Key)),
            StoreEvent.recordUpdateMany
              ((sweepState.records.filter (isExpirable 100)).map (fun r => r.id))])) ∧
    (cleanupExpiredRecords true 100 sweepState).1 = 2 :=
  ⟨by decide, cleanup_expires_exactly_matching 100 sweepState (by decide), by decide⟩

theorem cleanup_delete_failure_aborts_witness :
    (cleanupExpiredRecords false 100 sweepState).2.1 = sweepState ∧
    (sweepState.records.filter (isExpirable 100)).isEmpty = false ∧
    (cleanupExpiredRecords false 100 sweepState).2.2.2 = some QError.storageError :=
  ⟨(cleanup_delete_failure_aborts 100 sweepState).1, by decide,
   (cleanup_delete_failure_aborts 100 sweepState).2 (by decide)⟩

/-! ## Claim C6 — `store` -/

/-- Claim C6: a successful `store` creates exactly one
`EncryptionKeyRecord`, one `QuarantineRecord` and one stored blob,
consistently linked, with the key record persisted before the
quarantine record (see the event trace); the record reachable under the
returned id is `QUARANTINED`, carries the supplied tier and labels, the
plaintext byte length, the hex SHA-256 of the plaintext, and expires at
the call time plus the configured TTL, which defaults to 72 hours.  The
generated record id is assumed fresh (`randomUUID`). -/
theorem store_creates_linked_records (masterKey : List Nat) (cfgExpiry : Option Nat)
    (rnd : StoreRandomness) (now : Nat) (content : List Nat)
    (metadata : QuarantineMetadata) (s : ServiceState)
    (hfresh : ∀ r ∈ s.records, r.id ≠ rnd.recordId) :
    resolveExpiryHours none = 72 ∧
    (store masterKey (resolveExpiryHours cfgExpiry) rnd now content metadata s).1
      = rnd.recordId ∧
    (store masterKey (resolveExpiryHours cfgExpiry) rnd now content metadata s).2.1.keys.length
      = s.keys.length + 1 ∧
    (store masterKey (resolveExpiryHours cfgExpiry) rnd now content metadata s).2.1.records.length
      = s.records.length + 1 ∧
    (store masterKey (resolveExpiryHours cfgExpiry) rnd now content metadata s).2.1.blobs.length
      = s.blobs.length + 1 ∧
    (store masterKey (resolveExpiryHours cfgExpiry) rnd now content metadata s).2.2
      = [StoreEvent.keyCreate rnd.keyId, StoreEvent.blobUpload rnd.s3Key,
         StoreEvent.recordCreate rnd.recordId] ∧
    (store masterKey (resolveExpiryHours cfgExpiry) rnd now content metadata s).2.1.keys
      = s.keys ++
        [{ id := rnd.keyId,
           encryptedDataKey := (encrypt masterKey rnd.dek rnd.iv rnd.dekIv content).encryptedDek,
           iv := (encrypt masterKey rnd.dek rnd.iv rnd.dekIv content).dekIv,
           authTag := (encrypt masterKey rnd.dek rnd.iv rnd.dekIv content).dekAuthTag,
           algorithm := "aes-256-gcm", createdAt := now }] ∧
    (store masterKey (resolveExpiryHours cfgExpiry) rnd now content metadata s).2.1.blobs
      = s.blobs ++
        [(rnd.s3Key, (encrypt masterKey rnd.dek rnd.iv rnd.dekIv content).ciphertext)] ∧
    ∃ r, getMetadata rnd.recordId
          (store masterKey (resolveExpiryHours cfgExpiry) rnd now content metadata s).2.1
        = some r
      ∧ r.status = QStatus.QUARANTINED ∧ r.tier = metadata.tier ∧ r.labels = metadata.labels
      ∧ r.sizeBytes = content.length ∧ r.contentHash = sha256Hex content
      ∧ r.expiresAt = now + resolveExpiryHours cfgExpiry * 60 * 60 * 1000
      ∧ r.encryptionKeyId = rnd.keyId ∧ r.s3Key = rnd.s3Key := by
  refine ⟨rfl, rfl, by simp [store], by simp [store], by simp [store], rfl, rfl, rfl, ?_⟩
  refine ⟨⟨rnd.recordId, rnd.s3Key, QStatus.QUARANTINED, metadata.tier, metadata.labels,
      metadata.contentType, metadata.sourceId, rnd.keyId, sha256Hex content,
      content.length, now + resolveExpiryHours cfgExpiry * 60 * 60 * 1000,
      none, none, none, now, now⟩, ?_, rfl, rfl, rfl, rfl, rfl, rfl, rfl, rfl⟩
  unfold getMetadata store
  have hnone : s.records.find? (fun q => decide (q.id = rnd.recordId)) = none :=
    List.find?_eq_none.mpr (fun r hr => by simp [hfresh r hr])
  rw [find?_append_of_none hnone]
  rw [List.find?_cons_of_pos _ (by simp)]

/-- Randomness for the C6 witness, matching the spec scenario
`store(b"secret", …)`. -/
def storeRnd : StoreRandomness :=
  { dek := dekBytesA, iv := ivBytesA, dekIv := dekIvBytesA,
    keyId := "ek9", s3Key := "quarantine/2026/02/06/blob9", recordId := "rec9" }

theorem store_creates_linked_records_witness :
    (∀ r ∈ (⟨[], [], []⟩ : ServiceState).records, r.id ≠ storeRnd.recordId) ∧
    ((store mkBytesA (resolveExpiryHours none) storeRnd 0
        [115, 101, 99, 114, 101, 116]
        { tier := "HIGH", labels := ["AWS_KEY"], contentType := none, sourceId := none }
        ⟨[], [], []⟩).1 = storeRnd.recordId ∧
     ∃ r, getMetadata storeRnd.recordId
          (store mkBytesA (resolveExpiryHours none) storeRnd 0
            [115, 101, 99, 114, 101, 116]
            { tier := "HIGH", labels := ["AWS_KEY"], contentType := none, sourceId := none }
            ⟨[], [], []⟩).2.1
        = some r
      ∧ r.status = QStatus.QUARANTINED ∧ r.tier = "HIGH"
      ∧ r.sizeBytes = 6) := by
  have h := store_creates_linked_records mkBytesA none storeRnd 0
    [115, 101, 99, 114, 101, 116]
    { tier := "HIGH", labels := ["AWS_KEY"], contentType := none, sourceId := none }
    ⟨[], [], []⟩ (by decide)
  obtain ⟨r, hfind, hst, htier, hlab, hsize, hrest⟩ := h.2.2.2.2.2.2.2.2
  exact ⟨by decide, h.2.1, r, hfind, hst, htier, hsize⟩

/-! ## Claim C8 — master key validation -/

/-- Claim C8: constructing the crypto engine with a master key whose
decoded length is not exactly 32 bytes fails with a validation error at
construction time; with a decoded length of exactly 32 bytes it
succeeds, returning the key itself (never truncated or padded). -/
theorem createEncryptionService_key_length (masterKey : List Nat) :
    (masterKey.length ≠ 32 →
      ∃ msg, createEncryptionService masterKey = Except.error msg) ∧
    (masterKey.length = 32 →
      createEncryptionService masterKey = Except.ok masterKey) := by
  constructor
  · intro h
    refine ⟨"Master key must be exactly 32 bytes (256 bits).", ?_⟩
    simp [createEncryptionService, h]
  · intro h
    simp [createEncryptionService, h]

theorem createEncryptionService_key_length_witness :
    (List.replicate 16 0 : List Nat).length ≠ 32 ∧
    (∃ msg, createEncryptionService (List.replicate 16 0) = Except.error msg) ∧
    (List.replicate 32 0 : List Nat).length = 32 ∧
    createEncryptionService (List.replicate 32 0) = Except.ok (List.replicate 32 0) :=
  ⟨by decide,
   (createEncryptionService_key_length (List.replicate 16 0)).1 (by decide),
   by decide,
   (createEncryptionService_key_length (List.replicate 32 0)).2 (by decide)⟩

end Quarantine
